import Mathlib

/-!
Commission and goal-evaluation engine of the DigiSac sales dashboard.

Shallow embedding of the business logic of `src/app.py`:

* `calculate_commission_standard` (lines 12–20): tiered commission on
  Standard-category revenue.  Note the Python function returns the bare
  float `0.0` on the `target_value == 0` branch and a 3-tuple
  `(commission, rate*100, achievement)` otherwise; we model the return
  type as the sum type `StdResult` to capture this faithfully.
* `calculate_commission_waba` (lines 22–23): flat 10% commission.
* the processing block (lines 77–87): per-category sums over the
  dataframe rows (the `tipo` column compared case-insensitively, via
  `str.lower`), total revenue, overall
  progress percentage, and the commission breakdown.  The tuple
  unpacking on line 85 (`comm_standard, rate_standard, achievement = ...`)
  raises a `TypeError` in Python when the callee returned the bare float,
  which we model with `Except`.

Monetary values and percentages are modelled as exact rationals (`ℚ`).
-/

namespace DigiSac

/-- One dataframe row as seen by the processing block: a category string
(`tipo`) and a monetary amount (`valor`). -/
structure SaleRecord where
  tipo : String
  valor : ℚ
  deriving DecidableEq

/-- Python `str.lower` on the category strings (app.py lines 77–79). -/
def lower (s : String) : String := ⟨s.data.map Char.toLower⟩

/-- Tier lookup embedded from app.py lines 15–19: `rate = 0.0` followed by
the `if / elif` chain on the achievement percentage. -/
def tier_rate (achievement : ℚ) : ℚ :=
  if 50 ≤ achievement ∧ achievement < 80 then 0.015
  else if 80 ≤ achievement ∧ achievement < 100 then 0.02
  else if 100 ≤ achievement ∧ achievement < 110 then 0.04
  else if 110 ≤ achievement then 0.08
  else 0

/-- Return value of `calculate_commission_standard`: the Python function
returns the bare float `0.0` when `target_value == 0` and the 3-tuple
`(sales_value * rate, rate * 100, achievement)` otherwise. -/
inductive StdResult where
  | scalar (v : ℚ)
  | triple (comm ratePct achievement : ℚ)
  deriving DecidableEq

/-- app.py lines 12–20. -/
def calculate_commission_standard (sales_value target_value : ℚ) : StdResult :=
  if target_value = 0 then .scalar 0
  else
    let achievement := sales_value / target_value * 100
    let rate := tier_rate achievement
    .triple (sales_value * rate) (rate * 100) achievement

/-- app.py lines 22–23. -/
def calculate_commission_waba (sales_value : ℚ) : ℚ :=
  sales_value * 0.10

/-- Sum of `valor` over the rows whose lower-cased `tipo` equals `t`
(app.py lines 77–79). -/
def sum_tipo (t : String) (df : List SaleRecord) : ℚ :=
  ((df.filter fun r => lower r.tipo == t).map fun r => r.valor).sum

/-- app.py line 77. -/
def val_standard (df : List SaleRecord) : ℚ := sum_tipo "standard" df

/-- app.py line 78. -/
def val_waba (df : List SaleRecord) : ℚ := sum_tipo "waba" df

/-- app.py line 79. -/
def val_trial (df : List SaleRecord) : ℚ := sum_tipo "trial" df

/-- app.py line 81. -/
def total_revenue (df : List SaleRecord) : ℚ :=
  val_standard df + val_waba df + val_trial df

/-- app.py line 82: `(total_revenue / target_value) * 100 if target_value > 0 else 0`. -/
def progress_percent (df : List SaleRecord) (target_value : ℚ) : ℚ :=
  if 0 < target_value then total_revenue df / target_value * 100 else 0

/-- The values the processing block binds on app.py lines 81–87. -/
structure Results where
  total_revenue : ℚ
  progress_percent : ℚ
  comm_standard : ℚ
  rate_standard : ℚ
  achievement : ℚ
  comm_waba : ℚ
  total_commission : ℚ
  deriving DecidableEq

/-- The run-time error raised by the tuple unpacking on app.py line 85
when `calculate_commission_standard` returned the bare float `0.0`. -/
inductive PipelineError where
  | typeError
  deriving DecidableEq

/-- The processing block, app.py lines 77–87.  The tuple unpacking
`comm_standard, rate_standard, achievement = calculate_commission_standard(...)`
succeeds only when the callee returned a 3-tuple; unpacking the bare float
raises `TypeError`. -/
def process (df : List SaleRecord) (target_value : ℚ) :
    Except PipelineError Results :=
  match calculate_commission_standard (val_standard df) target_value with
  | .scalar _ => .error .typeError
  | .triple c r a =>
      .ok ⟨total_revenue df, progress_percent df target_value, c, r, a,
        calculate_commission_waba (val_waba df),
        c + calculate_commission_waba (val_waba df)⟩

/-- The demonstration dataset of the concrete scenario in the spec:
records Standard 12000, Standard 5000, WABA 3000, Trial 1000. -/
def demo_records : List SaleRecord :=
  [⟨"Standard", 12000⟩, ⟨"Standard", 5000⟩, ⟨"WABA", 3000⟩, ⟨"Trial", 1000⟩]

/-! ## Band characterisation of the tier lookup -/

theorem tier_rate_of_lt_50 {a : ℚ} (h : a < 50) : tier_rate a = 0 := by
  unfold tier_rate
  rw [if_neg (fun hc => absurd hc.1 (not_le.mpr h)),
    if_neg (fun hc => absurd hc.1 (not_le.mpr (by linarith))),
    if_neg (fun hc => absurd hc.1 (not_le.mpr (by linarith))),
    if_neg (not_le.mpr (by linarith))]

theorem tier_rate_band1 {a : ℚ} (h1 : 50 ≤ a) (h2 : a < 80) :
    tier_rate a = 0.015 := by
  unfold tier_rate
  rw [if_pos ⟨h1, h2⟩]

theorem tier_rate_band2 {a : ℚ} (h1 : 80 ≤ a) (h2 : a < 100) :
    tier_rate a = 0.02 := by
  unfold tier_rate
  rw [if_neg (fun hc => absurd hc.2 (not_lt.mpr h1)), if_pos ⟨h1, h2⟩]

theorem tier_rate_band3 {a : ℚ} (h1 : 100 ≤ a) (h2 : a < 110) :
    tier_rate a = 0.04 := by
  unfold tier_rate
  rw [if_neg (fun hc => absurd hc.2 (not_lt.mpr (by linarith))),
    if_neg (fun hc => absurd hc.2 (not_lt.mpr h1)), if_pos ⟨h1, h2⟩]

theorem tier_rate_band4 {a : ℚ} (h1 : 110 ≤ a) : tier_rate a = 0.08 := by
  unfold tier_rate
  rw [if_neg (fun hc => absurd hc.2 (not_lt.mpr (by linarith))),
    if_neg (fun hc => absurd hc.2 (not_lt.mpr (by linarith))),
    if_neg (fun hc => absurd hc.2 (not_lt.mpr h1)), if_pos h1]

theorem tier_rate_nonneg (a : ℚ) : 0 ≤ tier_rate a := by
  unfold tier_rate
  split_ifs <;> norm_num

theorem tier_rate_mono {a b : ℚ} (hab : a ≤ b) : tier_rate a ≤ tier_rate b := by
  rcases lt_or_le a 50 with ha | ha
  · rw [tier_rate_of_lt_50 ha]
    exact tier_rate_nonneg b
  rcases lt_or_le a 80 with ha2 | ha2
  · rw [tier_rate_band1 ha ha2]
    rcases lt_or_le b 80 with hb | hb
    · rw [tier_rate_band1 (by linarith) hb]
    rcases lt_or_le b 100 with hb2 | hb2
    · rw [tier_rate_band2 hb hb2]; norm_num
    rcases lt_or_le b 110 with hb3 | hb3
    · rw [tier_rate_band3 hb2 hb3]; norm_num
    · rw [tier_rate_band4 hb3]; norm_num
  rcases lt_or_le a 100 with ha3 | ha3
  · rw [tier_rate_band2 ha2 ha3]
    rcases lt_or_le b 100 with hb2 | hb2
    · rw [tier_rate_band2 (by linarith) hb2]
    rcases lt_or_le b 110 with hb3 | hb3
    · rw [tier_rate_band3 hb2 hb3]; norm_num
    · rw [tier_rate_band4 hb3]; norm_num
  rcases lt_or_le a 110 with ha4 | ha4
  · rw [tier_rate_band3 ha3 ha4]
    rcases lt_or_le b 110 with hb3 | hb3
    · rw [tier_rate_band3 (by linarith) hb3]
    · rw [tier_rate_band4 hb3]; norm_num
  · rw [tier_rate_band4 ha4, tier_rate_band4 (by linarith)]

/-! ## Evaluation helpers -/

theorem calc_std_target_zero (s : ℚ) :
    calculate_commission_standard s 0 = .scalar 0 := by
  unfold calculate_commission_standard
  rw [if_pos rfl]

theorem calc_std_eval (s t a : ℚ) (ht : t ≠ 0) (ha : s / t * 100 = a) :
    calculate_commission_standard s t
      = .triple (s * tier_rate a) (tier_rate a * 100) a := by
  simp only [calculate_commission_standard, if_neg ht, ha]

theorem process_eq_ok (df : List SaleRecord) (t c r a : ℚ)
    (h : calculate_commission_standard (val_standard df) t = .triple c r a) :
    process df t = .ok ⟨total_revenue df, progress_percent df t, c, r, a,
      calculate_commission_waba (val_waba df),
      c + calculate_commission_waba (val_waba df)⟩ := by
  unfold process
  rw [h]

theorem demo_val_standard : val_standard demo_records = 17000 := by
  have h1 : (lower "Standard" == "standard") = true := by decide
  have h2 : (lower "WABA" == "standard") = false := by decide
  have h3 : (lower "Trial" == "standard") = false := by decide
  simp only [val_standard, sum_tipo, demo_records, List.filter_cons,
    List.filter_nil, h1, h2, h3, if_true, if_false, List.map_cons,
    List.map_nil, List.sum_cons, List.sum_nil]
  norm_num

theorem demo_val_waba : val_waba demo_records = 3000 := by
  have h1 : (lower "Standard" == "waba") = false := by decide
  have h2 : (lower "WABA" == "waba") = true := by decide
  have h3 : (lower "Trial" == "waba") = false := by decide
  simp only [val_waba, sum_tipo, demo_records, List.filter_cons,
    List.filter_nil, h1, h2, h3, if_true, if_false, List.map_cons,
    List.map_nil, List.sum_cons, List.sum_nil]
  norm_num

theorem demo_val_trial : val_trial demo_records = 1000 := by
  have h1 : (lower "Standard" == "trial") = false := by decide
  have h2 : (lower "WABA" == "trial") = false := by decide
  have h3 : (lower "Trial" == "trial") = true := by decide
  simp only [val_trial, sum_tipo, demo_records, List.filter_cons,
    List.filter_nil, h1, h2, h3, if_true, if_false, List.map_cons,
    List.map_nil, List.sum_cons, List.sum_nil]
  norm_num

theorem demo_calc_std :
    calculate_commission_standard (val_standard demo_records) 50000
      = .triple 0 0 34 := by
  rw [demo_val_standard, calc_std_eval 17000 50000 34 (by norm_num) (by norm_num),
    tier_rate_of_lt_50 (show (34 : ℚ) < 50 by norm_num)]
  norm_num

theorem process_ok_inv (df : List SaleRecord) (t : ℚ) (res : Results)
    (h : process df t = .ok res) :
    ∃ c r a, calculate_commission_standard (val_standard df) t = .triple c r a ∧
      res = ⟨total_revenue df, progress_percent df t, c, r, a,
        calculate_commission_waba (val_waba df),
        c + calculate_commission_waba (val_waba df)⟩ := by
  unfold process at h
  cases hm : calculate_commission_standard (val_standard df) t with
  | scalar v =>
      rw [hm] at h
      exact absurd h (by simp)
  | triple c r a =>
      rw [hm] at h
      exact ⟨c, r, a, rfl, (Except.ok.inj h).symm⟩

theorem sum_tipo_append (t : String) (df : List SaleRecord) (r : SaleRecord) :
    sum_tipo t (df ++ [r])
      = sum_tipo t df + (if lower r.tipo == t then r.valor else 0) := by
  unfold sum_tipo
  rw [List.filter_append, List.map_append, List.sum_append]
  by_cases h : (lower r.tipo == t) = true
  · simp [List.filter_cons, h]
  · simp [List.filter_cons, h]

theorem val_standard_append_trial (df : List SaleRecord) (x : ℚ) :
    val_standard (df ++ [⟨"Trial", x⟩]) = val_standard df := by
  unfold val_standard
  rw [sum_tipo_append, show (lower "Trial" == "standard") = false by decide]
  simp

theorem val_waba_append_trial (df : List SaleRecord) (x : ℚ) :
    val_waba (df ++ [⟨"Trial", x⟩]) = val_waba df := by
  unfold val_waba
  rw [sum_tipo_append, show (lower "Trial" == "waba") = false by decide]
  simp

/-! ## Claims -/

/-- C1: contrary to the claim, a zero target does not yield a zero
commission result from the engine — `calculate_commission_standard`
returns the bare float `0.0` (not a 3-tuple carrying
`standardAchievement = 0`), so for every dataset the tuple unpacking on
app.py line 85 raises a `TypeError` and the processing block crashes.
The overall progress percentage computed on line 82 is indeed 0. -/
theorem target_zero_bare_float_crashes_unpacking (s : ℚ) (df : List SaleRecord) :
    calculate_commission_standard s 0 = .scalar 0 ∧
    process df 0 = .error .typeError ∧
    progress_percent df 0 = 0 := by
  refine ⟨calc_std_target_zero s, ?_, ?_⟩
  · unfold process
    rw [calc_std_target_zero]
  · unfold progress_percent
    rw [if_neg (by norm_num)]

/-- C3: the commission tier lookup is closed-open and exhaustive — for every
achievement value `a ≥ 0` the applied rate is 0 for `a < 50`, 1.5% on
`[50, 80)`, 2.0% on `[80, 100)`, 4.0% on `[100, 110)` and 8.0% on
`[110, ∞)`; in particular achievement exactly 80 maps to 2.0% and
achievement exactly 110 maps to 8.0%. -/
theorem tier_lookup_closed_open_exhaustive (a : ℚ) (ha : 0 ≤ a) :
    (a < 50 → tier_rate a = 0) ∧
    (50 ≤ a → a < 80 → tier_rate a = 0.015) ∧
    (80 ≤ a → a < 100 → tier_rate a = 0.02) ∧
    (100 ≤ a → a < 110 → tier_rate a = 0.04) ∧
    (110 ≤ a → tier_rate a = 0.08) :=
  ⟨fun h => tier_rate_of_lt_50 h,
   fun h1 h2 => tier_rate_band1 h1 h2,
   fun h1 h2 => tier_rate_band2 h1 h2,
   fun h1 h2 => tier_rate_band3 h1 h2,
   fun h1 => tier_rate_band4 h1⟩

/-- Witness for C3 at the two boundary achievements the claim singles out:
`tier_rate 80 = 2.0%` and `tier_rate 110 = 8.0%`. -/
theorem tier_lookup_closed_open_exhaustive_witness :
    tier_rate 80 = 0.02 ∧ tier_rate 110 = 0.08 :=
  ⟨(tier_lookup_closed_open_exhaustive 80 (by norm_num)).2.2.1 (by norm_num)
      (by norm_num),
   (tier_lookup_closed_open_exhaustive 110 (by norm_num)).2.2.2.2 (by norm_num)⟩

/-- C2 counterexample: with sales 100 and target −50 the function does
not raise — it returns the 3-tuple `(0, 0, −200)`, i.e. a result with a
negative achievement percentage, refuting the claim that a negative
target makes the engine fail instead of returning a result. -/
theorem negative_target_returns_result_counterexample :
    calculate_commission_standard 100 (-50) = .triple 0 0 (-200) := by
  rw [calc_std_eval 100 (-50) (-200) (by norm_num) (by norm_num),
    tier_rate_of_lt_50 (show (-200 : ℚ) < 50 by norm_num)]
  norm_num

/-- C2 (amended): `calculate_commission_standard` performs no
negative-target validation — for every `sales_value ≥ 0` and
`target_value < 0` it returns the 3-tuple with commission 0, rate 0 and a
nonpositive (nonsensical) achievement percentage `sales/target × 100`,
rather than raising any error. -/
theorem negative_target_no_validation (s t : ℚ) (hs : 0 ≤ s) (ht : t < 0) :
    calculate_commission_standard s t = .triple 0 0 (s / t * 100) ∧
    s / t * 100 ≤ 0 := by
  have ht0 : t ≠ 0 := ne_of_lt ht
  have hinv : t⁻¹ ≤ 0 := inv_nonpos.mpr (le_of_lt ht)
  have hdiv : s / t ≤ 0 := by
    rw [div_eq_mul_inv]
    exact mul_nonpos_iff.mpr (Or.inl ⟨hs, hinv⟩)
  have h100 : s / t * 100 ≤ 0 := by linarith
  refine ⟨?_, h100⟩
  rw [calc_std_eval s t (s / t * 100) ht0 rfl,
    tier_rate_of_lt_50 (lt_of_le_of_lt h100 (by norm_num))]
  norm_num

/-- Witness for the amended C2 theorem at sales 100, target −50. -/
theorem negative_target_no_validation_witness :
    calculate_commission_standard 100 (-50) = .triple 0 0 (100 / (-50) * 100) ∧
    (100 : ℚ) / (-50) * 100 ≤ 0 :=
  negative_target_no_validation 100 (-50) (by norm_num) (by norm_num)

/-- C4: for `sales ≥ 0` and `target > 0`, whatever 3-tuple the Standard
scheme returns satisfies `achievement = sales / target × 100` (Standard
revenue only — the blended overall percentage does not occur in the
formula), `ratePct = tier_rate achievement × 100` and
`commission = sales × tier_rate achievement`. -/
theorem standard_scheme_standard_revenue_only (s t : ℚ) (hs : 0 ≤ s)
    (ht : 0 < t) :
    ∀ c p a, calculate_commission_standard s t = .triple c p a →
      a = s / t * 100 ∧ p = tier_rate a * 100 ∧ c = s * tier_rate a := by
  intro c p a h
  rw [calc_std_eval s t (s / t * 100) (ne_of_gt ht) rfl] at h
  injection h with h1 h2 h3
  subst h3
  exact ⟨rfl, h2.symm, h1.symm⟩

/-- Witness for C4 at sales 17000, target 50000: achievement 34,
rate 0, commission 0. -/
theorem standard_scheme_standard_revenue_only_witness :
    (34 : ℚ) = 17000 / 50000 * 100 ∧
    (0 : ℚ) = tier_rate 34 * 100 ∧ (0 : ℚ) = 17000 * tier_rate 34 :=
  standard_scheme_standard_revenue_only 17000 50000 (by norm_num) (by norm_num)
    0 0 34
    (by rw [calc_std_eval 17000 50000 34 (by norm_num) (by norm_num),
          tier_rate_of_lt_50 (show (34 : ℚ) < 50 by norm_num)]
        norm_num)

/-- C5: on records Standard 12000, Standard 5000, WABA 3000, Trial 1000
with target 50000 the pipeline yields standardRevenue 17000, overall
progress 42%, standardAchievement 34%, applied rate 0%, standard
commission 0, WABA commission 300, totalRevenue 21000 and total
commission 300. -/
theorem concrete_scenario_demo_records :
    val_standard demo_records = 17000 ∧
    process demo_records 50000 = .ok ⟨21000, 42, 0, 0, 34, 300, 300⟩ := by
  have htr : total_revenue demo_records = 21000 := by
    unfold total_revenue
    rw [demo_val_standard, demo_val_waba, demo_val_trial]
    norm_num
  refine ⟨demo_val_standard, ?_⟩
  rw [process_eq_ok demo_records 50000 0 0 34 demo_calc_std]
  unfold progress_percent calculate_commission_waba
  rw [htr, demo_val_waba, if_pos (show (0 : ℚ) < 50000 by norm_num)]
  norm_num

/-- C6: the WABA commission is `wabaRevenue × 0.10`, a flat rate — in
every successful pipeline run the WABA commission field equals the WABA
revenue times 0.10, whatever the target value. -/
theorem waba_flat_ten_percent (w : ℚ) :
    calculate_commission_waba w = w * 0.10 ∧
    ∀ df t res, process df t = .ok res →
      res.comm_waba = val_waba df * 0.10 := by
  refine ⟨rfl, ?_⟩
  intro df t res h
  obtain ⟨c, r, a, hm, hres⟩ := process_ok_inv df t res h
  subst hres
  rfl

/-- Witness for C6 on the demonstration dataset with target 50000. -/
theorem waba_flat_ten_percent_witness :
    (Results.mk (total_revenue demo_records)
        (progress_percent demo_records 50000) 0 0 34
        (calculate_commission_waba (val_waba demo_records))
        (0 + calculate_commission_waba (val_waba demo_records))).comm_waba
      = val_waba demo_records * 0.10 :=
  (waba_flat_ten_percent 3000).2 demo_records 50000 _
    (process_eq_ok demo_records 50000 0 0 34 demo_calc_std)

/-- C7: the total commission of every successful pipeline run is the sum
of the Standard and the WABA commissions, and Trial revenue never
contributes — changing the amount of an appended Trial record does not
change the total commission. -/
theorem total_commission_sum_trial_never_contributes
    (df : List SaleRecord) (t x y : ℚ) :
    (process (df ++ [⟨"Trial", x⟩]) t).toOption.map Results.total_commission
      = (process (df ++ [⟨"Trial", y⟩]) t).toOption.map Results.total_commission ∧
    ∀ res, process df t = .ok res →
      res.total_commission = res.comm_standard + res.comm_waba := by
  constructor
  · unfold process
    rw [val_standard_append_trial df x, val_standard_append_trial df y,
      val_waba_append_trial df x, val_waba_append_trial df y]
    cases calculate_commission_standard (val_standard df) t <;> rfl
  · intro res h
    obtain ⟨c, r, a, hm, hres⟩ := process_ok_inv df t res h
    subst hres
    rfl

/-- Witness for C7 on the demonstration dataset with target 50000. -/
theorem total_commission_sum_trial_never_contributes_witness :
    (Results.mk (total_revenue demo_records)
        (progress_percent demo_records 50000) 0 0 34
        (calculate_commission_waba (val_waba demo_records))
        (0 + calculate_commission_waba (val_waba demo_records))).total_commission
      = (Results.mk (total_revenue demo_records)
          (progress_percent demo_records 50000) 0 0 34
          (calculate_commission_waba (val_waba demo_records))
          (0 + calculate_commission_waba (val_waba demo_records))).comm_standard
        + (Results.mk (total_revenue demo_records)
            (progress_percent demo_records 50000) 0 0 34
            (calculate_commission_waba (val_waba demo_records))
            (0 + calculate_commission_waba (val_waba demo_records))).comm_waba :=
  (total_commission_sum_trial_never_contributes demo_records 50000 0 0).2 _
    (process_eq_ok demo_records 50000 0 0 34 demo_calc_std)

/-- C8: the total revenue of every successful pipeline run is the sum of
the three per-category totals. -/
theorem total_revenue_is_category_sum (df : List SaleRecord) (t : ℚ) :
    ∀ res, process df t = .ok res →
      res.total_revenue = val_standard df + val_waba df + val_trial df := by
  intro res h
  obtain ⟨c, r, a, hm, hres⟩ := process_ok_inv df t res h
  subst hres
  rfl

/-- Witness for C8 on the demonstration dataset with target 50000. -/
theorem total_revenue_is_category_sum_witness :
    (Results.mk (total_revenue demo_records)
        (progress_percent demo_records 50000) 0 0 34
        (calculate_commission_waba (val_waba demo_records))
        (0 + calculate_commission_waba (val_waba demo_records))).total_revenue
      = val_standard demo_records + val_waba demo_records + val_trial demo_records :=
  total_revenue_is_category_sum demo_records 50000 _
    (process_eq_ok demo_records 50000 0 0 34 demo_calc_std)

/-- C9: for a fixed target `t > 0` the standard achievement percentage
returned by `calculate_commission_standard` is monotone non-decreasing in
the Standard revenue. -/
theorem standard_achievement_monotone (r1 r2 t : ℚ) (h0 : 0 ≤ r1)
    (h12 : r1 ≤ r2) (ht : 0 < t) :
    ∀ c1 p1 a1 c2 p2 a2,
      calculate_commission_standard r1 t = .triple c1 p1 a1 →
      calculate_commission_standard r2 t = .triple c2 p2 a2 → a1 ≤ a2 := by
  intro c1 p1 a1 c2 p2 a2 h1 h2
  rw [calc_std_eval r1 t (r1 / t * 100) (ne_of_gt ht) rfl] at h1
  rw [calc_std_eval r2 t (r2 / t * 100) (ne_of_gt ht) rfl] at h2
  injection h1 with e1 e2 e3
  injection h2 with f1 f2 f3
  subst e3 f3
  gcongr

/-- Witness for C9: revenues 40000 ≤ 60000 against target 50000 give
achievements 80 ≤ 120. -/
theorem standard_achievement_monotone_witness : (80 : ℚ) ≤ 120 :=
  standard_achievement_monotone 40000 60000 50000 (by norm_num) (by norm_num)
    (by norm_num) 800 2 80 4800 8 120
    (by rw [calc_std_eval 40000 50000 80 (by norm_num) (by norm_num),
          tier_rate_band2 (by norm_num) (by norm_num)]
        norm_num)
    (by rw [calc_std_eval 60000 50000 120 (by norm_num) (by norm_num),
          tier_rate_band4 (by norm_num)]
        norm_num)

/-- C10 (implicit): for a fixed target `t > 0` the Standard commission is
monotone non-decreasing in the sales value over the non-negative sales
values — the tier-boundary rate jumps never make it decrease — and it is
non-negative. -/
theorem standard_commission_monotone (s1 s2 t : ℚ) (h0 : 0 ≤ s1)
    (h12 : s1 ≤ s2) (ht : 0 < t) :
    ∀ c1 p1 a1 c2 p2 a2,
      calculate_commission_standard s1 t = .triple c1 p1 a1 →
      calculate_commission_standard s2 t = .triple c2 p2 a2 →
      c1 ≤ c2 ∧ 0 ≤ c1 := by
  intro c1 p1 a1 c2 p2 a2 h1 h2
  rw [calc_std_eval s1 t (s1 / t * 100) (ne_of_gt ht) rfl] at h1
  rw [calc_std_eval s2 t (s2 / t * 100) (ne_of_gt ht) rfl] at h2
  injection h1 with e1 e2 e3
  injection h2 with f1 f2 f3
  subst e1 f1
  have hach : s1 / t * 100 ≤ s2 / t * 100 := by gcongr
  constructor
  · exact mul_le_mul h12 (tier_rate_mono hach) (tier_rate_nonneg _)
      (le_trans h0 h12)
  · exact mul_nonneg h0 (tier_rate_nonneg _)

/-- Witness for C10: sales 40000 ≤ 60000 against target 50000 give
commissions 800 ≤ 4800, both non-negative. -/
theorem standard_commission_monotone_witness :
    (800 : ℚ) ≤ 4800 ∧ (0 : ℚ) ≤ 800 :=
  standard_commission_monotone 40000 60000 50000 (by norm_num) (by norm_num)
    (by norm_num) 800 2 80 4800 8 120
    (by rw [calc_std_eval 40000 50000 80 (by norm_num) (by norm_num),
          tier_rate_band2 (by norm_num) (by norm_num)]
        norm_num)
    (by rw [calc_std_eval 60000 50000 120 (by norm_num) (by norm_num),
          tier_rate_band4 (by norm_num)]
        norm_num)

end DigiSac
